import Mathlib

/-!
# Terrashark core — shallow embedding and verification

This file embeds the core of the terrashark ecosystem simulator
(`src/entities/base.py`, `src/entities/Organism.py`, `src/entities/tree.py`,
`src/simulation/terrain.py`) and proves/refutes the frozen specification
claims against it.

Modelling conventions:
* Python floats are idealized as exact numbers: stored trait/state values
  become `ℚ`; the one genuinely irrational operation the claims touch
  (`(hunger*thirst)**0.5` inside `Genome.distance`) is computed in `ℝ`
  via `Real.sqrt`.
* Python exceptions are modelled with `Except PyErr`; `float('inf')`
  returned by `Genome.distance` is modelled as `⊤ : EReal`.
* Object identity of `TileData` values is modelled by distinct natural-number
  identity tokens.
-/

/-- The Python exception kinds raised by the embedded code paths. -/
inductive PyErr where
  | zeroDivisionError
  | typeError
  | valueError
  deriving DecidableEq

open Classical in
/-- Python float division: `x / y`, raising `ZeroDivisionError` when `y == 0`. -/
noncomputable def pyDiv (x y : ℝ) : Except PyErr ℝ :=
  if y = 0 then .error .zeroDivisionError else .ok (x / y)

/-- The `Genome` record of `src/entities/base.py`.

Constructor arguments `hunger_max`/`thirst_max` are stored under the
attribute names `hunger`/`thirst`, exactly as `Genome.__init__` does
(`self.hunger = hunger_max`, `self.thirst = thirst_max`).  The
`metabolism` field holds the value `get_metabolism` computes once at
construction (`5 * size**0.75 * (hunger*thirst)**0.5 / (speed*vision)`,
irrational in general); no claim inspects that formula, they only read
the stored rate, so it is carried as a plain field. -/
structure Genome where
  species : String
  speed : ℚ
  vision : ℚ
  hunger : ℚ
  thirst : ℚ
  max_age : ℚ
  reproductive_crit : ℚ
  size : ℚ
  fertility : ℚ
  energy : ℚ
  age : ℚ
  metabolism : ℚ
  deriving DecidableEq

/-- Embeds `Genome.distance` from `src/entities/base.py` lines 28–40: `inf` when the
species differ, otherwise the weighted sum of relative trait differences
divided by 6.  Each denominator is taken from `self` (the receiver), and each
division raises `ZeroDivisionError` when its denominator is zero, in the
source's left-to-right evaluation order. -/
noncomputable def Genome.distance (a b : Genome) : Except PyErr EReal :=
  if a.species ≠ b.species then .ok ⊤
  else do
    let t1 ← pyDiv ((a.speed : ℝ) - (b.speed : ℝ)) (a.speed : ℝ)
    let t2 ← pyDiv ((a.vision : ℝ) - (b.vision : ℝ)) (a.vision : ℝ)
    let t3 ← pyDiv ((a.hunger : ℝ) - (b.hunger : ℝ))
      (Real.sqrt ((a.hunger : ℝ) * (a.thirst : ℝ)))
    let t4 ← pyDiv ((a.max_age : ℝ) - (b.max_age : ℝ)) (a.max_age : ℝ)
    let t5 ← pyDiv ((a.reproductive_crit : ℝ) - (b.reproductive_crit : ℝ))
      (a.reproductive_crit : ℝ)
    let t6 ← pyDiv ((a.size : ℝ) - (b.size : ℝ)) (a.size : ℝ)
    .ok (((2 * |t1| + 1.5 * |t2| + 1.0 * |t3| + 0.5 * |t4| + |t5| + 1.0 * |t6|) / 6 : ℝ) : EReal)

open Classical in
/-- Embeds `Genome.can_reproduce` (base.py lines 51–60): distance check first, then
energy, then age, in the source's order. -/
noncomputable def Genome.can_reproduce (a b : Genome) : Except PyErr Bool := do
  let d ← Genome.distance a b
  .ok (if ((a.reproductive_crit : ℝ) : EReal) < d then false
    else if a.energy < 20 ∨ b.energy < 20 then false
    else if a.age < 1 ∨ b.age < 1 then false
    else true)

/-- Embeds `Genome.reproduce` (base.py lines 62–80).  When `can_reproduce` fails it
returns `None`.  When `can_reproduce` holds, the source evaluates the
`child_factor` calls and then invokes `Genome(species=..., hunger_rate=...)`;
`Genome.__init__` has no parameter named `hunger_rate` (it is `hunger_max`),
so that call unconditionally raises `TypeError`, and the two parent-energy
deductions on the following lines are never executed. -/
noncomputable def Genome.reproduce (a b : Genome) : Except PyErr (Option Genome) := do
  let ok ← Genome.can_reproduce a b
  if ok then .error .typeError
  else .ok none

/-- Embeds `BIOME_THRESHOLDS` from `src/simulation/terrain.py` lines 21–28. -/
def BIOME_THRESHOLDS : List (String × ℚ) :=
  [("deep-ocean", 0.30),
   ("shallow-water", 0.40),
   ("sand", 0.45),
   ("grass", 0.65),
   ("forest", 0.78),
   ("rock", 1.0)]

/-- Embeds `TileData._classify_biome` (terrain.py lines 104–110): the first biome
whose threshold is strictly above the elevation; `none` models the
`ValueError` raised when no threshold matches.  `TileData.__init__` calls
this, so tile construction succeeds exactly when this returns `some`. -/
def TileData.classify_biome (elevation : ℚ) : Option String :=
  (BIOME_THRESHOLDS.find? (fun bt => elevation < bt.2)).map Prod.fst

/-- Embeds `TileMap` (terrain.py lines 117–129).  `tiles` holds the identity tokens
of the `TileData` objects of the flat row-major array (`index = y*width+x`);
distinct objects carry distinct tokens. -/
structure TileMap where
  width : ℕ
  height : ℕ
  tiles : List ℕ

/-- Embeds `TileMap.find` (terrain.py lines 137–154): linear identity scan returning
the flat index, or `-1` when the tile reference is not in this map. -/
def TileMap.find (m : TileMap) (tile : ℕ) : Int :=
  match m.tiles.indexOf? tile with
  | some i => (i : Int)
  | none => -1

/-- Embeds `TileMap.get_neighbour` (terrain.py lines 156–195).  After the identity
lookup (raising `ValueError "Tile not found in TileMap"` for a foreign tile),
the body executes `for dy in range(-range, range + 1)`: the parameter is
itself named `range`, shadowing the builtin, so this calls an `int` and
unconditionally raises `TypeError` before producing any neighbour.  The
radius parameter is named `rad` here because `range` shadows the builtin in
the source — which is exactly the bug. -/
def TileMap.get_neighbour (m : TileMap) (tile : ℕ) (rad : ℕ) : Except PyErr (List ℕ) :=
  if m.find tile = -1 then .error .valueError
  else
    let _ := rad
    .error .typeError

/-- Modelled from the spec: `TileMap.get_adjacent` is called by
`OrganismSprite.get_path` but is absent from `src/simulation/terrain.py`.
Per spec §4.5/§4.1 it returns the immediate (radius-1) neighbourhood: every
tile at Chebyshev distance ≤ 1 inside `[0,width)×[0,height)`, excluding the
center, in row-major scan order.  Tiles are flat row-major indices. -/
def TileMap.get_adjacent (m : TileMap) (idx : ℕ) : List ℕ :=
  let cx : ℤ := (idx % m.width : ℕ)
  let cy : ℤ := (idx / m.width : ℕ)
  ([(-1, -1), (-1, 0), (-1, 1), (0, -1), (0, 1), (1, -1), (1, 0), (1, 1)] :
      List (ℤ × ℤ)).filterMap
    (fun d =>
      let ny := cy + d.1
      let nx := cx + d.2
      if 0 ≤ nx ∧ nx < (m.width : ℤ) ∧ 0 ≤ ny ∧ ny < (m.height : ℤ)
      then some (ny * (m.width : ℤ) + nx).toNat
      else none)

/-- Modelled from the spec: `TileMap.distance_to` is called by
`OrganismSprite.get_path` but is absent from `src/simulation/terrain.py`.
Per spec §4.1 it is the Euclidean distance between the two tiles' world
positions; the world position of index `i` is its grid coordinate scaled by
the (positive) tile size.  It is represented here by the squared
coordinate distance, a strictly monotone reparameterization: `get_path`
only ever *compares* these values, and `d ↦ (ts·√d)` preserves strict
order, so every comparison agrees with the source's. -/
def TileMap.distance_to_sq (m : TileMap) (a b : ℕ) : ℚ :=
  (((a % m.width : ℕ) : ℚ) - ((b % m.width : ℕ) : ℚ)) ^ 2 +
    (((a / m.width : ℕ) : ℚ) - ((b / m.width : ℕ) : ℚ)) ^ 2

/-- The inner candidate scan of `OrganismSprite.get_path` (Organism.py lines
243–254) for the case where the target is not adjacent: fold over the
adjacency list keeping the first strict minimizer of distance-to-target
among unvisited tiles (`if d < best_dist`). -/
def bestStep (m : TileMap) (target : ℕ) (visited : List ℕ) :
    List ℕ → Option (ℕ × ℚ) → Option (ℕ × ℚ)
  | [], best => best
  | t :: rest, best =>
    if t ∈ visited then bestStep m target visited rest best
    else
      let d := m.distance_to_sq t target
      match best with
      | none => bestStep m target visited rest (some (t, d))
      | some best' =>
        if d < best'.2 then bestStep m target visited rest (some (t, d))
        else bestStep m target visited rest (some best')

/-- The step loop of `OrganismSprite.get_path` (Organism.py lines 230–260),
with the step budget (`max_steps = 100` in the source) as explicit fuel.
Each fuel unit is one iteration of the `for _ in range(max_steps)` loop:
check arrival, mark `current` visited, read the adjacency, append the target
if adjacent and stop, otherwise append the best unvisited neighbour (abort
when none exists). -/
def get_path_go (m : TileMap) (target : ℕ) :
    ℕ → ℕ → List ℕ → List ℕ → List ℕ
  | 0, _, _, path => path
  | fuel + 1, current, visited, path =>
    if current = target then path
    else
      let visited' := current :: visited
      let adj := m.get_adjacent current
      if adj = [] then path
      else if target ∈ adj then path ++ [target]
      else
        match bestStep m target visited' adj none with
        | none => path
        | some best => get_path_go m target fuel best.1 visited' (path ++ [best.1])

/-- Embeds `OrganismSprite.get_path` (Organism.py lines 210–264) with both tiles
given: empty path when already at the target, otherwise the greedy step
loop capped at 100 iterations. -/
def get_path (m : TileMap) (fromTile target : ℕ) : List ℕ :=
  if fromTile = target then []
  else get_path_go m target 100 fromTile [] []

/-- The per-organism mutable physiological state of `OrganismSprite`
(Organism.py lines 42–62): the shadow copies of age/energy, hunger, thirst,
the move-cooldown timer `time_till_move`, and the `alive` flag, together
with the owned genome. -/
structure OrganismState where
  genome : Genome
  time_till_move : ℚ
  age : ℚ
  energy : ℚ
  hunger : ℚ
  thirst : ℚ
  alive : Bool
  deriving DecidableEq

/-- Embeds `OrganismSprite.update` (Organism.py lines 79–114).

The returned state is the state after the physiology block (lines 81–112);
the returned boolean records whether line 114, `self.do_task(self.get_task())`
— the per-species decision/action step — was invoked by this very call
(it is skipped only on the early dead-exit, where `kill()` merely detaches
the sprite from its pygame groups and the state is unchanged).

Two remarks tied to the source text:
* the cooldown is `if self.time_till_move - dt > 0` then decrement else reset
  to `0`;
* the death thresholds for hunger and thirst are
  `getattr(self.genome, "hunger_max", 100)` and
  `getattr(self.genome, "thirst_max", 100)`; `Genome.__init__` stores those
  constructor arguments under the attribute names `hunger`/`thirst`, so the
  `getattr` defaults always fire and both thresholds are the constant `100`,
  regardless of the genome. -/
def OrganismSprite.update (s : OrganismState) (dt : ℚ) : OrganismState × Bool :=
  if s.alive then
    let ttm := if 0 < s.time_till_move - dt then s.time_till_move - dt else 0
    let age' := s.age + dt
    let cost := s.genome.metabolism * dt
    let energy' := max 0 (s.energy - cost)
    let hunger' := max 0 (s.hunger + cost)
    let thirst' := max 0 (s.thirst + cost)
    let alive' : Bool :=
      if s.genome.max_age ≤ age' ∨ energy' ≤ 0 ∨ (100 : ℚ) < hunger' ∨ (100 : ℚ) < thirst'
      then false else s.alive
    ({ s with time_till_move := ttm, age := age', energy := energy',
              hunger := hunger', thirst := thirst', alive := alive' }, true)
  else (s, false)

/-- The plant-specific mutable state of `Tree` (tree.py lines 30–31) that
`Tree.eaten` touches: the stored apple buffer and the `alive` flag. -/
structure TreeState where
  apples : ℕ
  alive : Bool
  deriving DecidableEq

/-- Embeds `Tree.eaten` (tree.py lines 75–86) together with the tile's
occupancy.  `occ` is the surrounding tile's `organism` list (a plain Python
list holding identity tokens, this tree's among them since `Tree.__init__`
registered it via `tile.place(self)`).  With apples in stock one apple is
consumed (returning `1`); otherwise the tree dies and `self.kill()` runs
(returning `-1`) — `kill()` detaches the sprite from its pygame groups
only, and neither branch calls `tile.remove`, so the occupancy list is
returned unchanged in both branches. -/
def Tree.eaten (t : TreeState) (occ : List ℕ) : (TreeState × List ℕ) × Int :=
  if 0 < t.apples then (({ t with apples := t.apples - 1 }, occ), 1)
  else (({ t with alive := false }, occ), -1)

/-- A shark genome as in the quick test at the bottom of base.py: mature,
full energy, and trivially trait-compatible with itself. -/
def gShark : Genome :=
  { species := "shark", speed := 5, vision := 10, hunger := 3, thirst := 10,
    max_age := 20, reproductive_crit := 3/10, size := 50, fertility := 2,
    energy := 100, age := 2, metabolism := 1 }

/-- A constructible genome (`speed*vision ≠ 0`, so `get_metabolism` succeeds)
with `max_age = 0` and `energy = 10 < 20`: the degenerate `max_age`
denominator makes `distance` raise. -/
def gZero : Genome :=
  { species := "gz", speed := 1, vision := 1, hunger := 1, thirst := 1,
    max_age := 0, reproductive_crit := 1, size := 1, fertility := 1,
    energy := 10, age := 0, metabolism := 5 }

/-- A genome with all traits positive but `energy = 10 < 20`. -/
def gWell : Genome :=
  { species := "gw", speed := 1, vision := 1, hunger := 1, thirst := 1,
    max_age := 1, reproductive_crit := 1, size := 1, fertility := 1,
    energy := 10, age := 0, metabolism := 5 }

/-- First genome of the asymmetry pair: `speed = 1`, all other traits `1`. -/
def gA5 : Genome :=
  { species := "s", speed := 1, vision := 1, hunger := 1, thirst := 1,
    max_age := 1, reproductive_crit := 1, size := 1, fertility := 1,
    energy := 100, age := 2, metabolism := 1 }

/-- Second genome of the asymmetry pair: identical to `gA5` except
`speed = 2`. -/
def gB5 : Genome :=
  { species := "s", speed := 2, vision := 1, hunger := 1, thirst := 1,
    max_age := 1, reproductive_crit := 1, size := 1, fertility := 1,
    energy := 100, age := 2, metabolism := 1 }

/-- A genome of a different species than `gA5`. -/
def gC5 : Genome :=
  { species := "t", speed := 1, vision := 1, hunger := 1, thirst := 1,
    max_age := 1, reproductive_crit := 1, size := 1, fertility := 1,
    energy := 100, age := 2, metabolism := 1 }

/-- A live organism whose genome was constructed with `hunger_max = 10`
(stored in the `hunger` attribute) and whose metabolism is the exactly
representable rate of the genome `size=16, hunger=4, thirst=9, speed=4,
vision=3`: `5 * 16^0.75 * sqrt(36) / 12 = 20`. -/
def sBug : OrganismState :=
  { genome := { species := "goober", speed := 4, vision := 3, hunger := 10,
                thirst := 10, max_age := 30, reproductive_crit := 1,
                size := 16, fertility := 1, energy := 100, age := 0,
                metabolism := 20 },
    time_till_move := 0, age := 0, energy := 100, hunger := 0, thirst := 0,
    alive := true }

/-- A 2×2 tile map whose four `TileData` objects carry identity tokens
`0, 1, 2, 3` in row-major order. -/
def mGrid : TileMap := { width := 2, height := 2, tiles := [0, 1, 2, 3] }

lemma pyDiv_of_ne {y : ℝ} (h : y ≠ 0) (x : ℝ) : pyDiv x y = .ok (x / y) := by
  simp [pyDiv, h]

lemma pyDiv_zero_of_ne {y : ℝ} (h : y ≠ 0) : pyDiv 0 y = .ok 0 := by
  simp [pyDiv, h]

lemma pyDiv_of_eq {y : ℝ} (h : y = 0) (x : ℝ) :
    pyDiv x y = .error .zeroDivisionError := by
  simp [pyDiv, h]

lemma genome_distance_of_species_ne {a b : Genome} (h : a.species ≠ b.species) :
    Genome.distance a b = .ok ⊤ := by
  simp [Genome.distance, h]

lemma genome_distance_of_traits_eq {a b : Genome}
    (hs : a.species = b.species) (h1 : a.speed = b.speed)
    (h2 : a.vision = b.vision) (h3 : a.hunger = b.hunger)
    (h4 : a.max_age = b.max_age) (h5 : a.reproductive_crit = b.reproductive_crit)
    (h6 : a.size = b.size) (n1 : a.speed ≠ 0) (n2 : a.vision ≠ 0)
    (n3 : 0 < a.hunger * a.thirst) (n4 : a.max_age ≠ 0)
    (n5 : a.reproductive_crit ≠ 0) (n6 : a.size ≠ 0) :
    Genome.distance a b = .ok 0 := by
  have c1 : (a.speed : ℝ) ≠ 0 := by exact_mod_cast n1
  have c2 : (a.vision : ℝ) ≠ 0 := by exact_mod_cast n2
  have c3 : Real.sqrt ((a.hunger : ℝ) * (a.thirst : ℝ)) ≠ 0 := by
    refine ne_of_gt (Real.sqrt_pos.mpr ?_)
    exact_mod_cast n3
  have c4 : (a.max_age : ℝ) ≠ 0 := by exact_mod_cast n4
  have c5 : (a.reproductive_crit : ℝ) ≠ 0 := by exact_mod_cast n5
  have c6 : (a.size : ℝ) ≠ 0 := by exact_mod_cast n6
  rw [h1] at c1
  rw [h2] at c2
  rw [h3] at c3
  rw [h4] at c4
  rw [h5] at c5
  rw [h6] at c6
  simp only [Genome.distance, hs, ne_eq, not_true_eq_false, if_false,
    ite_false, h1, h2, h3, h4, h5, h6, sub_self,
    pyDiv_zero_of_ne c1, pyDiv_zero_of_ne c2, pyDiv_zero_of_ne c3,
    pyDiv_zero_of_ne c4, pyDiv_zero_of_ne c5, pyDiv_zero_of_ne c6]
  norm_num [bind, Except.bind]

lemma genome_distance_ok_of_pos {a : Genome} (b : Genome)
    (p1 : 0 < a.speed) (p2 : 0 < a.vision) (p3 : 0 < a.hunger)
    (p4 : 0 < a.thirst) (p5 : 0 < a.max_age) (p6 : 0 < a.reproductive_crit)
    (p7 : 0 < a.size) :
    ∃ d, Genome.distance a b = .ok d := by
  by_cases hs : a.species = b.species
  · have c1 : (a.speed : ℝ) ≠ 0 := by positivity
    have c2 : (a.vision : ℝ) ≠ 0 := by positivity
    have c3 : Real.sqrt ((a.hunger : ℝ) * (a.thirst : ℝ)) ≠ 0 := by
      refine ne_of_gt (Real.sqrt_pos.mpr ?_)
      have : (0 : ℚ) < a.hunger * a.thirst := mul_pos p3 p4
      exact_mod_cast this
    have c4 : (a.max_age : ℝ) ≠ 0 := by positivity
    have c5 : (a.reproductive_crit : ℝ) ≠ 0 := by positivity
    have c6 : (a.size : ℝ) ≠ 0 := by positivity
    refine ⟨(((2 * |((a.speed : ℝ) - (b.speed : ℝ)) / (a.speed : ℝ)| +
        1.5 * |((a.vision : ℝ) - (b.vision : ℝ)) / (a.vision : ℝ)| +
        1.0 * |((a.hunger : ℝ) - (b.hunger : ℝ)) /
          Real.sqrt ((a.hunger : ℝ) * (a.thirst : ℝ))| +
        0.5 * |((a.max_age : ℝ) - (b.max_age : ℝ)) / (a.max_age : ℝ)| +
        |((a.reproductive_crit : ℝ) - (b.reproductive_crit : ℝ)) /
          (a.reproductive_crit : ℝ)| +
        1.0 * |((a.size : ℝ) - (b.size : ℝ)) / (a.size : ℝ)|) / 6 : ℝ) : EReal), ?_⟩
    simp only [Genome.distance, hs, ne_eq, not_true_eq_false, if_false,
      ite_false, pyDiv_of_ne c1, pyDiv_of_ne c2, pyDiv_of_ne c3,
      pyDiv_of_ne c4, pyDiv_of_ne c5, pyDiv_of_ne c6]
    simp [bind, Except.bind]
  · exact ⟨⊤, genome_distance_of_species_ne hs⟩

lemma genome_can_reproduce_of_distance {a b : Genome} {d : EReal}
    (h : Genome.distance a b = .ok d) :
    Genome.can_reproduce a b =
      .ok (if ((a.reproductive_crit : ℝ) : EReal) < d then false
        else if a.energy < 20 ∨ b.energy < 20 then false
        else if a.age < 1 ∨ b.age < 1 then false
        else true) := by
  simp [Genome.can_reproduce, h, bind, Except.bind]

lemma genome_can_reproduce_of_distance_err {a b : Genome} {e : PyErr}
    (h : Genome.distance a b = .error e) :
    Genome.can_reproduce a b = .error e := by
  simp [Genome.can_reproduce, h, bind, Except.bind]

lemma genome_reproduce_of_false {a b : Genome}
    (h : Genome.can_reproduce a b = .ok false) :
    Genome.reproduce a b = .ok none := by
  simp [Genome.reproduce, h, bind, Except.bind]

lemma genome_reproduce_of_true {a b : Genome}
    (h : Genome.can_reproduce a b = .ok true) :
    Genome.reproduce a b = .error .typeError := by
  simp [Genome.reproduce, h, bind, Except.bind]

lemma genome_reproduce_of_err {a b : Genome} {e : PyErr}
    (h : Genome.can_reproduce a b = .error e) :
    Genome.reproduce a b = .error e := by
  simp [Genome.reproduce, h, bind, Except.bind]

/-- C3: the claim says that for a `can_reproduce`-compatible pair,
`reproduce` returns a child built by `child_factor` and deducts 10 energy
from each parent.  The code instead raises `TypeError` on every successful
compatibility check, because the child construction passes the keyword
`hunger_rate` to `Genome.__init__`, whose parameter is named `hunger_max`;
the energy deductions are on the lines after the construction and never run.
Here two identical mature sharks (distance `0 ≤ 0.3`, energies `100 ≥ 20`,
ages `2 ≥ 1`) pass `can_reproduce`, and `reproduce` evaluates to the
`TypeError`, not to a child. -/
theorem genome_reproduce_compatible_raises_typeerror :
    Genome.reproduce gShark gShark = Except.error PyErr.typeError := by
  have hd : Genome.distance gShark gShark = .ok 0 := by
    refine genome_distance_of_traits_eq rfl rfl rfl rfl rfl rfl rfl ?_ ?_ ?_ ?_ ?_ ?_ <;>
      norm_num [gShark]
  refine genome_reproduce_of_true ?_
  rw [genome_can_reproduce_of_distance hd]
  have hcrit : ¬ (((gShark.reproductive_crit : ℝ) : EReal) < 0) := by
    rw [show (0 : EReal) = ((0 : ℝ) : EReal) from rfl, EReal.coe_lt_coe_iff]
    norm_num [gShark]
  rw [if_neg hcrit]
  norm_num [gShark]

/-- C4 counterexample: the claim says `reproduce` returns `None` and never
raises whenever either parent's energy is below 20.  `gZero` has energy
`10 < 20`, yet `reproduce gZero gZero` raises `ZeroDivisionError`:
`can_reproduce` evaluates `self.distance(partner)` *before* the energy
check, and the `max_age` term divides by `self.max_age = 0`. -/
theorem genome_reproduce_degenerate_raises :
    gZero.energy < 20 ∧
    Genome.reproduce gZero gZero = Except.error PyErr.zeroDivisionError := by
  refine ⟨by norm_num [gZero], ?_⟩
  have e1 : ((gZero.speed : ℚ) : ℝ) ≠ 0 := by norm_num [gZero]
  have e2 : ((gZero.vision : ℚ) : ℝ) ≠ 0 := by norm_num [gZero]
  have e3 : Real.sqrt ((gZero.hunger : ℝ) * (gZero.thirst : ℝ)) ≠ 0 := by
    norm_num [gZero]
  have e4 : ((gZero.max_age : ℚ) : ℝ) = 0 := by norm_num [gZero]
  have hd : Genome.distance gZero gZero = .error .zeroDivisionError := by
    simp only [Genome.distance, ne_eq, not_true_eq_false, if_false, ite_false,
      sub_self, pyDiv_zero_of_ne e1, pyDiv_zero_of_ne e2, pyDiv_zero_of_ne e3,
      pyDiv_of_eq e4]
    simp [bind, Except.bind]
  exact genome_reproduce_of_err (genome_can_reproduce_of_distance_err hd)

/-- C4 amended: for genomes whose traits are positive (in particular every
genome the simulator constructs — `get_metabolism` already requires
`speed*vision ≠ 0` — with non-degenerate normalizing traits), `reproduce`
returns `None` and raises nothing whenever either parent's energy is below
20, or either age is below 1, or the trait distance exceeds
`self.reproductive_crit` — which by the species barrier (distance `⊤`)
covers every cross-species pair. -/
theorem genome_reproduce_none_of_incompatible :
    ∀ a b : Genome, 0 < a.speed → 0 < a.vision → 0 < a.hunger → 0 < a.thirst →
      0 < a.max_age → 0 < a.reproductive_crit → 0 < a.size →
      (a.energy < 20 ∨ b.energy < 20 ∨ a.age < 1 ∨ b.age < 1 ∨
        (∃ d, Genome.distance a b = Except.ok d ∧
          ((a.reproductive_crit : ℝ) : EReal) < d)) →
      Genome.reproduce a b = Except.ok none := by
  intro a b p1 p2 p3 p4 p5 p6 p7 hcase
  obtain ⟨d, hd⟩ := genome_distance_ok_of_pos b p1 p2 p3 p4 p5 p6 p7
  refine genome_reproduce_of_false ?_
  rw [genome_can_reproduce_of_distance hd]
  rcases hcase with he | he | he | he | ⟨d', hd', hlt⟩
  · by_cases hc : ((a.reproductive_crit : ℝ) : EReal) < d
    · simp [hc]
    · simp [hc, he]
  · by_cases hc : ((a.reproductive_crit : ℝ) : EReal) < d
    · simp [hc]
    · simp [hc, he]
  · by_cases hc : ((a.reproductive_crit : ℝ) : EReal) < d
    · simp [hc]
    · rw [if_neg hc]
      simp [he, ite_self]
  · by_cases hc : ((a.reproductive_crit : ℝ) : EReal) < d
    · simp [hc]
    · rw [if_neg hc]
      simp [he, ite_self]
  · rw [hd] at hd'
    have hdd : d' = d := by
      simpa using hd'.symm
    subst hdd
    simp [hlt]

/-- C4 witness: `gWell` has positive traits and energy `10 < 20`; applying
the amended theorem yields `reproduce gWell gWell = ok none`. -/
theorem genome_reproduce_none_of_incompatible_witness :
    gWell.energy < 20 ∧ Genome.reproduce gWell gWell = Except.ok none :=
  ⟨by norm_num [gWell],
   genome_reproduce_none_of_incompatible gWell gWell (by norm_num [gWell])
     (by norm_num [gWell]) (by norm_num [gWell]) (by norm_num [gWell])
     (by norm_num [gWell]) (by norm_num [gWell]) (by norm_num [gWell])
     (Or.inl (by norm_num [gWell]))⟩

/-- C5 counterexample: the claim says trait distance is symmetric.  It is
not: every difference is normalized by the *receiver's* trait.  `gA5` and
`gB5` agree on everything except speed (`1` vs `2`); the code gives
`distance(gA5, gB5) = 2·|1−2|/1/6 = 1/3` but
`distance(gB5, gA5) = 2·|2−1|/2/6 = 1/6`. -/
theorem genome_distance_asymmetric_at :
    Genome.distance gA5 gB5 = Except.ok (((1 : ℝ) / 3 : ℝ) : EReal) ∧
    Genome.distance gB5 gA5 = Except.ok (((1 : ℝ) / 6 : ℝ) : EReal) ∧
    Genome.distance gA5 gB5 ≠ Genome.distance gB5 gA5 := by
  have h1 : Genome.distance gA5 gB5 = Except.ok (((1 : ℝ) / 3 : ℝ) : EReal) := by
    simp only [Genome.distance, gA5, gB5]
    norm_num [pyDiv, bind, Except.bind, Real.sqrt_one, abs_neg, abs_one,
      abs_zero, EReal.coe_eq_coe_iff]
  have h2 : Genome.distance gB5 gA5 = Except.ok (((1 : ℝ) / 6 : ℝ) : EReal) := by
    simp only [Genome.distance, gB5, gA5]
    norm_num [pyDiv, bind, Except.bind, Real.sqrt_one, abs_neg, abs_one,
      abs_zero, EReal.coe_eq_coe_iff, abs_div]
  refine ⟨h1, h2, ?_⟩
  rw [h1, h2]
  simp only [ne_eq, Except.ok.injEq, EReal.coe_eq_coe_iff]
  norm_num

/-- C5 amended: trait distance is *not* symmetric in general (see the
counterexample); what does hold is the rest of the claim, under
non-degenerate normalizing traits: it is infinite whenever the species
differ, regardless of all other traits, and it is zero for two genomes of
the same species with identical traits whose normalizing denominators are
nonzero. -/
theorem genome_distance_species_barrier_and_zero_on_identical :
    (∀ a b : Genome, a.species ≠ b.species → Genome.distance a b = Except.ok ⊤) ∧
    (∀ a b : Genome, a.species = b.species → a.speed = b.speed →
      a.vision = b.vision → a.hunger = b.hunger → a.max_age = b.max_age →
      a.reproductive_crit = b.reproductive_crit → a.size = b.size →
      a.speed ≠ 0 → a.vision ≠ 0 → 0 < a.hunger * a.thirst → a.max_age ≠ 0 →
      a.reproductive_crit ≠ 0 → a.size ≠ 0 →
      Genome.distance a b = Except.ok 0) :=
  ⟨fun _ _ h => genome_distance_of_species_ne h,
   fun _ _ hs h1 h2 h3 h4 h5 h6 n1 n2 n3 n4 n5 n6 =>
     genome_distance_of_traits_eq hs h1 h2 h3 h4 h5 h6 n1 n2 n3 n4 n5 n6⟩

/-- C5 witness: the species barrier applied to `gA5` (species `"s"`) and
`gC5` (species `"t"`), and the zero-distance property applied to the pair
`(gA5, gA5)`. -/
theorem genome_distance_species_barrier_witness :
    Genome.distance gA5 gC5 = Except.ok ⊤ ∧
    Genome.distance gA5 gA5 = Except.ok 0 :=
  ⟨genome_distance_species_barrier_and_zero_on_identical.1 gA5 gC5 (by decide),
   genome_distance_species_barrier_and_zero_on_identical.2 gA5 gA5 rfl rfl rfl
     rfl rfl rfl rfl (by norm_num [gA5]) (by norm_num [gA5]) (by norm_num [gA5])
     (by norm_num [gA5]) (by norm_num [gA5]) (by norm_num [gA5])⟩

/-- C1: the claim says the death evaluation compares hunger against
`genome.hunger_threshold`.  The code reads
`getattr(self.genome, "hunger_max", 100)`, and `Genome` stores that
threshold under the attribute name `hunger`, so the fallback `100` is
always used.  `sBug`'s genome was constructed with `hunger_max = 10`; one
`update(1)` tick raises hunger to `20 > 10` (metabolism `20`), yet the
organism stays alive, where the claim requires death on exactly this
tick.  (The ordering itself — cooldown, aging, metabolism, clamps, then
the death check — does match the claim; only the threshold source diverges.) -/
theorem organism_update_ignores_genome_hunger_threshold :
    sBug.genome.hunger = 10 ∧
    10 < ((OrganismSprite.update sBug 1).1).hunger ∧
    ((OrganismSprite.update sBug 1).1).alive = true := by
  refine ⟨rfl, ?_, ?_⟩ <;> norm_num [OrganismSprite.update, sBug]

/-- C7 counterexample: the claim says `update(dt)` performs only the
physiological steps and does not itself invoke the decision loop.  But line
114 of Organism.py is `self.do_task(self.get_task())`, executed by `update`
itself on every live organism — recorded by the second component of the
embedded `update`. -/
theorem organism_update_invokes_decision_loop :
    sBug.alive = true ∧ (OrganismSprite.update sBug (1/6)).2 = true := by
  constructor
  · rfl
  · norm_num [OrganismSprite.update, sBug]

/-- C7 amended: `update(dt)` performs the physiological steps and then
*itself* invokes the decision loop `do_task(get_task())` before returning
(skipping it only on the dead early-exit), so an organism's decision-action
step runs inside its own `update` call rather than after the whole
population's updates complete. -/
theorem organism_update_decision_iff_alive :
    ∀ (s : OrganismState) (dt : ℚ),
      (OrganismSprite.update s dt).2 = s.alive := by
  intro s dt
  by_cases h : s.alive <;> simp [OrganismSprite.update, h]

/-- C8: the claim says that when `alive` becomes false the organism is
removed from its tile's occupancy list.  Nothing in the code does that:
`update`'s dead path and `Tree.eaten` only call `kill()`, which detaches
the sprite from its pygame groups, while `TileData.organism` is a plain
list (`TileData.remove` exists but is never called).  A tree with no
apples standing on a tile whose occupancy list is `[7]` (its own token) is
eaten: it dies, and the occupancy list still contains it. -/
theorem tree_death_left_in_occupancy :
    ((Tree.eaten ⟨0, true⟩ [7]).1.1).alive = false ∧
    ((Tree.eaten ⟨0, true⟩ [7]).1.2) = [7] ∧
    7 ∈ ((Tree.eaten ⟨0, true⟩ [7]).1.2) := by
  refine ⟨rfl, rfl, ?_⟩
  decide

/-- C9: a predation event on a live plant consumes one stored apple and
leaves it alive while apples remain, and kills it exactly when the apple
buffer is empty — so the buffer is always exhausted before predation can
kill the plant. -/
theorem tree_eaten_apple_buffer :
    ∀ (t : TreeState) (occ : List ℕ), t.alive = true →
      ((Tree.eaten t occ).1.1).apples = t.apples - 1 ∧
      ((Tree.eaten t occ).1.1).alive = (if t.apples = 0 then false else true) := by
  intro t occ h
  by_cases hp : t.apples = 0
  · simp [Tree.eaten, hp]
  · have : 0 < t.apples := Nat.pos_of_ne_zero hp
    simp [Tree.eaten, this, hp, h]

/-- C9 witness: a live plant with one stored apple: after being eaten it
has zero apples and is still alive. -/
theorem tree_eaten_apple_buffer_witness :
    ((Tree.eaten ⟨1, true⟩ []).1.1).apples = 1 - 1 ∧
    ((Tree.eaten ⟨1, true⟩ []).1.1).alive = (if (1 : ℕ) = 0 then false else true) :=
  tree_eaten_apple_buffer ⟨1, true⟩ [] rfl

/-- C2: the claim says the neighbourhood query returns the Chebyshev-≤r
tiles in row-major order.  The code cannot: its radius parameter is named
`range`, shadowing the builtin, so `for dy in range(-range, range + 1)`
calls an `int` and raises `TypeError` for every member tile (here tile `0`
of a 2×2 map at radius 1).  Only the `TileNotFound` half of the claim
holds: a foreign tile (token `9`) raises the identity-lookup `ValueError`
before the broken loop is reached. -/
theorem tilemap_get_neighbour_always_raises :
    TileMap.get_neighbour mGrid 0 1 = Except.error PyErr.typeError ∧
    TileMap.get_neighbour mGrid 9 1 = Except.error PyErr.valueError := by
  constructor <;> rfl

lemma classify_biome_eq (e : ℚ) :
    TileData.classify_biome e =
      if e < 0.30 then some "deep-ocean"
      else if e < 0.40 then some "shallow-water"
      else if e < 0.45 then some "sand"
      else if e < 0.65 then some "grass"
      else if e < 0.78 then some "forest"
      else if e < 1.0 then some "rock"
      else none := by
  unfold TileData.classify_biome BIOME_THRESHOLDS
  by_cases h1 : e < 0.30
  · rw [List.find?_cons_of_pos _ (by simpa using h1), if_pos h1]; rfl
  rw [List.find?_cons_of_neg _ (by simpa using h1), if_neg h1]
  by_cases h2 : e < 0.40
  · rw [List.find?_cons_of_pos _ (by simpa using h2), if_pos h2]; rfl
  rw [List.find?_cons_of_neg _ (by simpa using h2), if_neg h2]
  by_cases h3 : e < 0.45
  · rw [List.find?_cons_of_pos _ (by simpa using h3), if_pos h3]; rfl
  rw [List.find?_cons_of_neg _ (by simpa using h3), if_neg h3]
  by_cases h4 : e < 0.65
  · rw [List.find?_cons_of_pos _ (by simpa using h4), if_pos h4]; rfl
  rw [List.find?_cons_of_neg _ (by simpa using h4), if_neg h4]
  by_cases h5 : e < 0.78
  · rw [List.find?_cons_of_pos _ (by simpa using h5), if_pos h5]; rfl
  rw [List.find?_cons_of_neg _ (by simpa using h5), if_neg h5]
  by_cases h6 : e < 1.0
  · rw [List.find?_cons_of_pos _ (by simpa using h6), if_pos h6]; rfl
  rw [List.find?_cons_of_neg _ (by simpa using h6), if_neg h6]
  rfl

/-- C10: biome classification is total exactly below elevation `1.0`:
`classify_biome e` is the `ValueError` precisely when `1 ≤ e`, and any
successfully classified tile has `e < 1` and one of the six biome names —
hence every constructed `TileData` carries a valid biome. -/
theorem tiledata_biome_valid :
    ∀ e : ℚ,
      (TileData.classify_biome e = none ↔ 1 ≤ e) ∧
      ∀ b, TileData.classify_biome e = some b →
        e < 1 ∧ b ∈ ["deep-ocean", "shallow-water", "sand", "grass", "forest", "rock"] := by
  intro e
  rw [classify_biome_eq e]
  constructor
  · split_ifs with h1 h2 h3 h4 h5 h6 <;>
      simp only [Option.some_ne_none, false_iff, not_le] <;>
      first
        | linarith
        | (simp only [true_iff]; linarith)
  · intro b hb
    split_ifs at hb with h1 h2 h3 h4 h5 h6 <;>
      injection hb with hb <;> subst hb <;> exact ⟨by linarith, by norm_num⟩

/-- C10 witness: elevation `1/2` classifies as `"grass"`: the error-iff at
`1/2` and the validity facts for the produced biome. -/
theorem tiledata_biome_valid_witness :
    (TileData.classify_biome (1/2) = none ↔ (1 : ℚ) ≤ 1/2) ∧
    ((1/2 : ℚ) < 1 ∧
      "grass" ∈ ["deep-ocean", "shallow-water", "sand", "grass", "forest", "rock"]) :=
  ⟨(tiledata_biome_valid (1/2)).1,
   (tiledata_biome_valid (1/2)).2 "grass" (by rw [classify_biome_eq]; norm_num)⟩

lemma bestStep_not_mem_visited {m : TileMap} {target : ℕ} {visited : List ℕ} :
    ∀ (l : List ℕ) (acc : Option (ℕ × ℚ)) (b : ℕ) (d : ℚ),
      (∀ p : ℕ × ℚ, acc = some p → p.1 ∉ visited) →
      bestStep m target visited l acc = some (b, d) → b ∉ visited := by
  intro l
  induction l with
  | nil =>
    intro acc b d hacc h
    rw [bestStep] at h
    exact hacc (b, d) h
  | cons t rest ih =>
    intro acc b d hacc h
    rw [bestStep] at h
    by_cases ht : t ∈ visited
    · rw [if_pos ht] at h
      exact ih acc b d hacc h
    · rw [if_neg ht] at h
      cases acc with
      | none =>
        refine ih _ b d ?_ h
        intro p hp
        cases hp
        exact ht
      | some best' =>
        simp only at h
        by_cases hd : m.distance_to_sq t target < best'.2
        · rw [if_pos hd] at h
          refine ih _ b d ?_ h
          intro p hp
          cases hp
          exact ht
        · rw [if_neg hd] at h
          refine ih _ b d ?_ h
          intro p hp
          cases hp
          exact hacc _ rfl

lemma get_path_go_length_le {m : TileMap} {target : ℕ} :
    ∀ (fuel current : ℕ) (visited path : List ℕ),
      (get_path_go m target fuel current visited path).length ≤ path.length + fuel := by
  intro fuel
  induction fuel with
  | zero =>
    intro c v p
    simp [get_path_go]
  | succ n ih =>
    intro c v p
    simp only [get_path_go]
    split_ifs with h1 h2 h3
    · exact Nat.le_add_right _ _
    · exact Nat.le_add_right _ _
    · simp only [List.length_append, List.length_singleton]
      omega
    · split
      · exact Nat.le_add_right _ _
      · next best _ =>
        have hrec := ih best.1 (c :: v) (p ++ [best.1])
        simp only [List.length_append, List.length_singleton] at hrec ⊢
        omega

lemma get_path_go_not_mem {m : TileMap} {target a : ℕ} (ha : a ≠ target) :
    ∀ (fuel current : ℕ) (visited path : List ℕ),
      a ∉ path → (a = current ∨ a ∈ visited) →
      a ∉ get_path_go m target fuel current visited path := by
  intro fuel
  induction fuel with
  | zero =>
    intro c v p hp _
    simpa [get_path_go] using hp
  | succ n ih =>
    intro c v p hp hcv
    have hav : a ∈ c :: v := by
      rcases hcv with h | h
      · exact h ▸ List.mem_cons_self _ _
      · exact List.mem_cons_of_mem _ h
    simp only [get_path_go]
    split_ifs with h1 h2 h3
    · exact hp
    · exact hp
    · simp only [List.mem_append, List.mem_singleton]
      rintro (h | h)
      · exact hp h
      · exact ha h
    · split
      · exact hp
      · next best hbs =>
        have hbv : best.1 ∉ (c :: v) :=
          bestStep_not_mem_visited _ none best.1 best.2
            (fun p hp' => by cases hp') hbs
        have hab : a ≠ best.1 := fun h => hbv (h ▸ hav)
        refine ih best.1 (c :: v) (p ++ [best.1]) ?_ (Or.inr hav)
        simp only [List.mem_append, List.mem_singleton]
        rintro (h | h)
        · exact hp h
        · exact hab h

/-- C6: the greedy path computation — with `TileMap.get_adjacent` and the
pathfinding distance modelled from the spec, since the source `TileMap` does
not define them — is the step loop capped at `max_steps = 100` (embedded as
the structurally decreasing fuel `100`, so each call performs at most 100
iterations and the produced path gains at most one tile per iteration):
`get_path` from a tile to itself is empty, the produced sequence never
contains the start tile, and its length is at most 100. -/
theorem get_path_contract :
    (∀ (m : TileMap) (a : ℕ), get_path m a a = []) ∧
    (∀ (m : TileMap) (a b : ℕ), a ∉ get_path m a b) ∧
    (∀ (m : TileMap) (a b : ℕ), (get_path m a b).length ≤ 100) := by
  refine ⟨fun m a => by simp [get_path], ?_, ?_⟩
  · intro m a b
    by_cases h : a = b
    · simp [get_path, h]
    · simp only [get_path, if_neg h]
      exact get_path_go_not_mem h 100 a [] [] (List.not_mem_nil a) (Or.inl rfl)
  · intro m a b
    by_cases h : a = b
    · simp [get_path, h]
    · simp only [get_path, if_neg h]
      simpa using get_path_go_length_le 100 a [] []
